import Mathlib

/-!
Shallow embedding of the NFT listing scripts of this repository
(src/main.js and src/unnamed/part_000, both named `sell-nfts.js` in their
header comment) together with proofs about the embedded definitions.

JavaScript strings are modelled as lists of characters (`JStr`).  Machine
numbers in the scripts are JavaScript numbers used only at integer values
(Unix timestamps, durations) or bigint-like values (`ethers.BigNumber`),
so they are modelled as `Int`/`Nat`.  Fallible operations (JS `throw`)
are modelled with `Option`/`Except`.  Network and clock effects are
modelled as explicit parameters: the holdings query and the submission
outcome are given by environment functions, and `Date.now()/1000` is the
parameter `now`.
-/

namespace VenvenSpec

/-- JavaScript strings are modelled as lists of characters. -/
abbrev JStr := List Char

/-- Decimal digit string to number, as `BigNumber.from` on an all-digit
string: left-to-right accumulation. -/
def digitsToNat (l : JStr) : Nat :=
  l.foldl (fun a c => a * 10 + (c.toNat - 48)) 0

/-- Decimal rendering of a natural number, as JS `toString()` on a
non-negative integer. -/
def natToString (n : Nat) : JStr :=
  Nat.toDigits 10 n

/-- Decimal rendering of an integer, as JS `toString()`. -/
def intToString (i : Int) : JStr :=
  if i < 0 then '-' :: natToString i.natAbs else natToString i.natAbs

/-- JS `String.prototype.split` with a one-character separator:
`"".split(sep)` is `[""]`, and every separator occurrence opens a new
(possibly empty) component. -/
def splitOnChar (sep : Char) : JStr → List JStr
  | [] => [[]]
  | c :: rest =>
    if c = sep then
      [] :: splitOnChar sep rest
    else
      match splitOnChar sep rest with
      | [] => [[c]]
      | h :: t => (c :: h) :: t

/-- JS `String.prototype.trim`: drop whitespace from both ends. -/
def trimJS (s : JStr) : JStr :=
  ((s.dropWhile Char.isWhitespace).reverse.dropWhile Char.isWhitespace).reverse

/-- Wallet/key list parsing from src/main.js and src/unnamed/part_000
lines 26-27: `split("\n").map(line => line.trim()).filter(Boolean)`
(the empty string is the only falsy string, so `filter(Boolean)` keeps
exactly the non-empty trimmed lines). -/
def parseLines (s : JStr) : List JStr :=
  ((splitOnChar '\n' s).map trimJS).filter (fun l => !l.isEmpty)

/-- JS `String.prototype.toLowerCase` on the ASCII addresses used by the
scripts. -/
def jsToLowerCase (s : JStr) : JStr :=
  s.map Char.toLower

/-- Longest leading digit run, as consumed by JS `parseInt`; `none` when
no digit is found (`NaN`). -/
def parseDigitPrefix (l : JStr) : Option Nat :=
  let ds := l.takeWhile Char.isDigit
  if ds.isEmpty then none else some (digitsToNat ds)

/-- JS `parseInt` restricted to base-10 inputs (the scripts call it on
the decimal `LISTING_DURATION_MINUTES` value): skip leading whitespace,
optional sign, then the longest digit prefix; `none` models `NaN`. -/
def parseIntJS (s : JStr) : Option Int :=
  match s.dropWhile Char.isWhitespace with
  | '-' :: rest => (parseDigitPrefix rest).map (fun n => -(n : Int))
  | '+' :: rest => (parseDigitPrefix rest).map (fun n => (n : Int))
  | rest => (parseDigitPrefix rest).map (fun n => (n : Int))

/-- Model of `ethers.utils.parseEther(priceInEth)` called at
src/unnamed/part_000 line 60, i.e. ethers v5 `parseFixed(value, 18)`:
the value must match `^-?[0-9.]+$`, must not be `"."` after removing the
sign, must not contain two dots, and its fractional component must not
exceed 18 digits (otherwise a "fractional component exceeds decimals"
error is thrown, modelled as `none`); the result is
`whole * 10^18 + fraction` padded to 18 digits, with the sign applied. -/
def parseEther (value : JStr) : Option Int :=
  let body := if value.head? = some '-' then value.tail else value
  if body.isEmpty then none
  else if !body.all (fun c => c.isDigit || c == '.') then none
  else if body = ['.'] then none
  else
    let comps := splitOnChar '.' body
    if 2 < comps.length then none
    else
      let whole := comps.headD []
      let frac := comps.getD 1 []
      let whole := if whole.isEmpty then ['0'] else whole
      let frac := if frac.isEmpty then ['0'] else frac
      if 18 < frac.length then none
      else
        let padded := frac ++ List.replicate (18 - frac.length) '0'
        let wei : Int := (digitsToNat whole : Int) * 10 ^ 18 + (digitsToNat padded : Int)
        some (if value.head? = some '-' then -wei else wei)

/-- Constant `SEAPORT_CONTRACT_ADDRESS` (both scripts, line 16). -/
def SEAPORT_CONTRACT_ADDRESS : JStr :=
  "0x00000000000001ad428e4906ae43d8f9852d0dd6".toList

/-- Constant `CHAIN_ID` (both scripts, line 15). -/
def CHAIN_ID : Nat := 8453

/-- The zero address used for `zone` and the native-currency token. -/
def zeroAddress : JStr :=
  "0x0000000000000000000000000000000000000000".toList

/-- The zero `zoneHash` value. -/
def zeroHash : JStr :=
  "0x0000000000000000000000000000000000000000000000000000000000000000".toList

/-- The fixed `conduitKey` of src/unnamed/part_000 line 130. -/
def conduitKeyConst : JStr :=
  "0x0000007b02230091a7ed01230072f706a00400000000000000000000000000".toList

/-- One fetched token: the fields of the holdings-query response consumed
by the scripts (`contract`, `identifier`, optional `name`). -/
structure NFT where
  contract : JStr
  identifier : JStr
  name : Option JStr
  deriving DecidableEq

/-- One offer leg (src/unnamed/part_000 lines 105-111). -/
structure OfferItem where
  itemType : Nat
  token : JStr
  identifierOrCriteria : JStr
  startAmount : JStr
  endAmount : JStr
  deriving DecidableEq

/-- One consideration leg (src/unnamed/part_000 lines 113-120). -/
structure ConsiderationItem where
  itemType : Nat
  token : JStr
  identifierOrCriteria : JStr
  startAmount : JStr
  endAmount : JStr
  recipient : JStr
  deriving DecidableEq

/-- The Seaport order components object (src/unnamed/part_000
lines 122-133). -/
structure OrderComponents where
  offerer : JStr
  zone : JStr
  offer : List OfferItem
  consideration : List ConsiderationItem
  orderType : Nat
  startTime : Int
  endTime : Int
  zoneHash : JStr
  salt : JStr
  conduitKey : JStr
  counter : JStr
  deriving DecidableEq

/-- The order built inside `listNFT` (src/unnamed/part_000 lines 105-133)
once the price is already converted to wei and the duration to seconds.
The random salt of line 129 (`BigNumber.from(randomBytes(32)).toString()`)
is modelled by the explicit parameter `saltValue`. -/
def buildOrder (walletAddress : JStr) (nft : NFT) (priceInWei : Int)
    (now : Int) (durationInSeconds : Int) (saltValue : Nat) : OrderComponents :=
  { offerer := walletAddress
    zone := zeroAddress
    offer := [{ itemType := 2
                token := nft.contract
                identifierOrCriteria := nft.identifier
                startAmount := ['1']
                endAmount := ['1'] }]
    consideration := [{ itemType := 0
                        token := zeroAddress
                        identifierOrCriteria := ['0']
                        startAmount := intToString priceInWei
                        endAmount := intToString priceInWei
                        recipient := walletAddress }]
    orderType := 0
    startTime := now
    endTime := now + durationInSeconds
    zoneHash := zeroHash
    salt := natToString saltValue
    conduitKey := conduitKeyConst
    counter := ['0'] }

/-- The order `listNFT` reaches the signing step with: `some` exactly
when `parseEther` does not throw and `parseInt` yields a number (a `NaN`
duration makes the typed-data signing of the built order throw, so no
well-formed order is produced either way). -/
def orderOfListing (priceStr durStr walletAddress : JStr) (nft : NFT)
    (now : Int) (saltValue : Nat) : Option OrderComponents :=
  match parseEther priceStr, parseIntJS durStr with
  | some wei, some m => some (buildOrder walletAddress nft wei now (m * 60) saltValue)
  | _, _ => none

/-- Token filtering of the main loop (src/unnamed/part_000 line 182 and
src/main.js line 113):
`data.nfts.filter(nft => nft.contract.toLowerCase() === TARGET_CONTRACT_ADDRESS.toLowerCase())`. -/
def targetNfts (nfts : List NFT) (target : JStr) : List NFT :=
  nfts.filter (fun n => jsToLowerCase n.contract == jsToLowerCase target)

/-- Tags of the log lines appended by `listNFT` (`[START]`, `[SUCCESS]`,
`[FAILED]`). -/
inductive LogTag where
  | start
  | success
  | failed
  deriving DecidableEq

/-- Outcome of the signing/submission attempt of one token, the effects
`listNFT` awaits: the signing exception, a transport error without an
HTTP response, a non-2xx HTTP response (`error.response` present), or an
accepted (2xx) response. -/
inductive SubmitOutcome where
  | signError
  | networkError
  | httpErrorResponse
  | accepted
  deriving DecidableEq

/-- `listNFT` of src/unnamed/part_000 lines 54-162: logs `[START]`, then
inside `try` converts the price, builds and signs the order and posts it;
any error is caught and logged as `[FAILED]` (with a second
`[FAILED] Error Details` line when the error carries an HTTP response)
and `false` is returned; an accepted response logs `[SUCCESS]` and
returns `true`.  The returned pair is (return value, appended log tags). -/
def listNFT (priceStr durStr walletAddress : JStr) (nft : NFT)
    (now : Int) (saltValue : Nat) (outcome : SubmitOutcome) : Bool × List LogTag :=
  match orderOfListing priceStr durStr walletAddress nft now saltValue with
  | none => (false, [LogTag.start, LogTag.failed])
  | some _ =>
    match outcome with
    | SubmitOutcome.signError => (false, [LogTag.start, LogTag.failed])
    | SubmitOutcome.networkError => (false, [LogTag.start, LogTag.failed])
    | SubmitOutcome.httpErrorResponse => (false, [LogTag.start, LogTag.failed, LogTag.failed])
    | SubmitOutcome.accepted => (true, [LogTag.start, LogTag.success])

/-- The process environment variables read at lines 19-27 of both
scripts; `none` models an unset variable. -/
structure Env where
  OPENSEA_API_KEY : Option JStr
  RPC_URL : Option JStr
  TARGET_CONTRACT_ADDRESS : Option JStr
  LISTING_PRICE_IN_ETH : Option JStr
  LISTING_DURATION_MINUTES : Option JStr
  WALLETS : Option JStr
  PRIVATE_KEYS : Option JStr
  deriving DecidableEq

/-- How startup halts: `typeError` is the uncaught
`TypeError: Cannot read properties of undefined (reading 'split')`
thrown at lines 26-27 when `WALLETS` or `PRIVATE_KEYS` is unset;
the other two are the explicit `process.exit(1)` validations of
lines 30-38. -/
inductive StartupError where
  | typeError
  | missingEnvVars
  | lengthMismatch (nWallets nKeys : Nat)
  deriving DecidableEq

/-- The configuration after successful startup. -/
structure Config where
  apiKey : JStr
  rpcUrl : JStr
  target : JStr
  price : JStr
  duration : JStr
  wallets : List JStr
  keys : List JStr
  deriving DecidableEq

/-- JS truthiness of an optional string: `undefined` and the empty
string are falsy. -/
def falsyOpt : Option JStr → Bool
  | none => true
  | some s => s.isEmpty

/-- Module-level startup of both scripts (lines 19-38): the wallet and
key lists are parsed first (lines 26-27; an unset variable throws a
TypeError there), then the five scalar variables are checked for
truthiness (lines 30-33), then the list lengths are compared
(lines 35-38). -/
def startup (env : Env) : Except StartupError Config :=
  match env.WALLETS with
  | none => Except.error StartupError.typeError
  | some w =>
    match env.PRIVATE_KEYS with
    | none => Except.error StartupError.typeError
    | some k =>
      let wallets := parseLines w
      let keys := parseLines k
      if falsyOpt env.OPENSEA_API_KEY || falsyOpt env.RPC_URL ||
         falsyOpt env.TARGET_CONTRACT_ADDRESS || falsyOpt env.LISTING_PRICE_IN_ETH ||
         falsyOpt env.LISTING_DURATION_MINUTES then
        Except.error StartupError.missingEnvVars
      else if wallets.length ≠ keys.length then
        Except.error (StartupError.lengthMismatch wallets.length keys.length)
      else
        Except.ok
          { apiKey := env.OPENSEA_API_KEY.getD []
            rpcUrl := env.RPC_URL.getD []
            target := env.TARGET_CONTRACT_ADDRESS.getD []
            price := env.LISTING_PRICE_IN_ETH.getD []
            duration := env.LISTING_DURATION_MINUTES.getD []
            wallets := wallets
            keys := keys }

/-- Result of the holdings query for one wallet: the parsed `data.nfts`
array, or a thrown error (network failure or non-2xx response). -/
inductive QueryResult where
  | ok (nfts : List NFT)
  | err (msg : JStr)
  deriving DecidableEq

/-- What the main loop records for one wallet: the query threw (caught at
src/unnamed/part_000 lines 193-197) or every filtered token was attempted,
with `listNFT`'s boolean result per token. -/
inductive WalletResult where
  | queryFailed
  | processed (attempts : List Bool)
  deriving DecidableEq

/-- The body of one iteration of the wallet loop (src/unnamed/part_000
lines 178-198): query the wallet's holdings (`query i`), filter to the
target collection, and run `listNFT` on each filtered token in order;
the per-token submission outcome is `submit i j` and the fresh random
salt of token `j` is `saltOf i j`. -/
def processWallet (cfg : Config) (i : Nat) (query : Nat → QueryResult)
    (submit : Nat → Nat → SubmitOutcome) (now : Int) (saltOf : Nat → Nat → Nat) : WalletResult :=
  match query i with
  | QueryResult.err _ => WalletResult.queryFailed
  | QueryResult.ok nfts =>
    let targets := targetNfts nfts cfg.target
    WalletResult.processed (targets.enum.map (fun p =>
      (listNFT cfg.price cfg.duration (cfg.wallets.getD i []) p.2 now (saltOf i p.1) (submit i p.1)).1))

/-- The wallet loop of `main` over a list of wallet indices.
`getWallet(privateKey)` (line 177) runs before the per-wallet `try`
block, so an invalid key (`keyValid i = false`) throws out of `main`
and aborts the whole run (modelled as `Except.error ()`), while
everything inside the `try` is caught per wallet. -/
def runWallets (cfg : Config) (keyValid : Nat → Bool) (query : Nat → QueryResult)
    (submit : Nat → Nat → SubmitOutcome) (now : Int) (saltOf : Nat → Nat → Nat) :
    List Nat → Except Unit (List WalletResult)
  | [] => Except.ok []
  | i :: rest =>
    if keyValid i then
      match runWallets cfg keyValid query submit now saltOf rest with
      | Except.ok rs => Except.ok (processWallet cfg i query submit now saltOf :: rs)
      | Except.error e => Except.error e
    else
      Except.error ()

/-- The whole process: startup validation, then `main()`; a startup
failure or an error escaping `main` reaches `process.exit(1)` /
`main().catch(... exit(1))`, otherwise the event loop drains and the
process exits 0.  Returns the exit status. -/
def runProgram (env : Env) (keyValid : Nat → Bool) (query : Nat → QueryResult)
    (submit : Nat → Nat → SubmitOutcome) (now : Int) (saltOf : Nat → Nat → Nat) : Nat :=
  match startup env with
  | Except.error _ => 1
  | Except.ok cfg =>
    match runWallets cfg keyValid query submit now saltOf (List.range cfg.wallets.length) with
    | Except.ok _ => 0
    | Except.error _ => 1

/-- JSON values, for comparing the HTTP bodies the two script variants
send to `POST /listings` (object field order is the JS insertion order). -/
inductive JsonV where
  | str (s : JStr)
  | num (n : Int)
  | arr (items : List JsonV)
  | obj (fields : List (JStr × JsonV))

/-- JSON view of one offer item. -/
def jsonOfOfferItem (it : OfferItem) : JsonV :=
  JsonV.obj [("itemType".toList, JsonV.num it.itemType),
             ("token".toList, JsonV.str it.token),
             ("identifierOrCriteria".toList, JsonV.str it.identifierOrCriteria),
             ("startAmount".toList, JsonV.str it.startAmount),
             ("endAmount".toList, JsonV.str it.endAmount)]

/-- JSON view of one consideration item. -/
def jsonOfConsiderationItem (it : ConsiderationItem) : JsonV :=
  JsonV.obj [("itemType".toList, JsonV.num it.itemType),
             ("token".toList, JsonV.str it.token),
             ("identifierOrCriteria".toList, JsonV.str it.identifierOrCriteria),
             ("startAmount".toList, JsonV.str it.startAmount),
             ("endAmount".toList, JsonV.str it.endAmount),
             ("recipient".toList, JsonV.str it.recipient)]

/-- JSON fields produced by spreading `orderComponents`, in source
field order. -/
def jsonOfOrder (o : OrderComponents) : List (JStr × JsonV) :=
  [("offerer".toList, JsonV.str o.offerer),
   ("zone".toList, JsonV.str o.zone),
   ("offer".toList, JsonV.arr (o.offer.map jsonOfOfferItem)),
   ("consideration".toList, JsonV.arr (o.consideration.map jsonOfConsiderationItem)),
   ("orderType".toList, JsonV.num o.orderType),
   ("startTime".toList, JsonV.num o.startTime),
   ("endTime".toList, JsonV.num o.endTime),
   ("zoneHash".toList, JsonV.str o.zoneHash),
   ("salt".toList, JsonV.str o.salt),
   ("conduitKey".toList, JsonV.str o.conduitKey),
   ("counter".toList, JsonV.str o.counter)]

/-- The `POST /listings` body of src/unnamed/part_000 lines 136-146:
`{parameters: {...orderComponents, signature}, protocol_address}`. -/
def payloadPart000 (o : OrderComponents) (signature : JStr) : JsonV :=
  JsonV.obj [("parameters".toList,
              JsonV.obj (jsonOfOrder o ++ [("signature".toList, JsonV.str signature)])),
             ("protocol_address".toList, JsonV.str SEAPORT_CONTRACT_ADDRESS)]

/-- src/main.js lines 64-67: `types`, `offer`, `consideration` and
`orderComponents` are empty placeholder literals (their braces hold only
the comment `... same as before ...`), so the spread `...orderComponents`
in the POST body contributes no fields. -/
def mainJsOrderFields : List (JStr × JsonV) := []

/-- src/main.js line 69: `wallet._signTypedData(domain, types,
orderComponents)` with the empty type schema of line 64 throws in
ethers v5 for every message (no primary type can be determined), so it
never yields a signature. -/
def mainJsSignTypedData : Option JStr := none

/-- The `POST /listings` body src/main.js lines 71-77 would send, given
a signature: `{...orderComponents, signature, protocol_address}` with
the empty `orderComponents` spread — only `signature` and
`protocol_address` remain. -/
def payloadMainJs (signature : JStr) : JsonV :=
  JsonV.obj (mainJsOrderFields ++
    [("signature".toList, JsonV.str signature),
     ("protocol_address".toList, JsonV.str SEAPORT_CONTRACT_ADDRESS)])

/-- The listing-submission body src/main.js actually sends for a token:
the signing step at line 69 throws before the POST at line 71 is
reached, so no body is ever sent. -/
def mainJsSubmittedBody : Option JsonV :=
  mainJsSignTypedData.map payloadMainJs

/-- The listing-submission body src/unnamed/part_000 sends for the given
inputs and signature: the `parameters`-wrapped payload of lines 136-146,
whenever the order builds. -/
def part000SubmittedBody (priceStr durStr walletAddress : JStr) (nft : NFT)
    (now : Int) (saltValue : Nat) (signature : JStr) : Option JsonV :=
  (orderOfListing priceStr durStr walletAddress nft now saltValue).map
    (fun o => payloadPart000 o signature)

/-- Inter-submission delay of src/unnamed/part_000 line 191:
`setTimeout(resolve, 2000)`. -/
def part000DelayMs : Nat := 2000

/-- Inter-submission delay of src/main.js line 120:
`setTimeout(resolve, 1000)`. -/
def mainJsDelayMs : Nat := 1000

/-- Spec-side: two strings are equal up to letter case (pointwise,
same length). -/
def eqIgnoreCase (a b : JStr) : Prop :=
  List.Forall₂ (fun c d => c.toLower = d.toLower) a b

/-- Spec-side: the order's counter field holds the offerer's current
on-chain counter value (what the claim asserts). -/
def counterFromChain (onChainCounter : Nat) (o : OrderComponents) : Prop :=
  o.counter = natToString onChainCounter

/-- Number of `[START]` entries in a log. -/
def startCount (log : List LogTag) : Nat :=
  log.countP (fun t => decide (t = LogTag.start))

/-- Number of terminal (`[SUCCESS]` or `[FAILED]`) entries in a log. -/
def terminalCount (log : List LogTag) : Nat :=
  log.countP (fun t => decide (t = LogTag.success) || decide (t = LogTag.failed))

/-- Spec-side: join lines with newline characters, the inverse shape of
`split("\n")`. -/
def joinLines : List JStr → JStr
  | [] => []
  | [l] => l
  | l :: l' :: rest => l ++ '\n' :: joinLines (l' :: rest)

/-- `true` exactly when startup validation passes (the process reaches
`main()`). -/
def startupOk (env : Env) : Bool :=
  match startup env with
  | Except.ok _ => true
  | Except.error _ => false

/-! ### Concrete inputs used by witnesses and counterexamples -/

/-- A concrete wallet address. -/
def wa0 : JStr := "0xAbCd000000000000000000000000000000000001".toList

/-- A concrete fetched token of the target collection. -/
def nft0 : NFT :=
  { contract := "0xTarGet00000000000000000000000000000000aa".toList
    identifier := ['4', '2']
    name := some ("CoolCat".toList) }

/-- A second concrete fetched token, same collection in different
letter case. -/
def nft1 : NFT :=
  { contract := "0xtarget00000000000000000000000000000000AA".toList
    identifier := ['7']
    name := none }

/-- The order built for `nft0` at price 0.1 ETH, duration 15 minutes,
`now = 1000`, salt 7. -/
def order5 : OrderComponents :=
  buildOrder wa0 nft0 100000000000000000 1000 900 7

/-- The order built for `nft0` at price 0.1 ETH, duration 0 minutes,
`now = 1000`, salt 7. -/
def order6 : OrderComponents :=
  buildOrder wa0 nft0 100000000000000000 1000 0 7

/-- A complete, well-formed environment with two wallets. -/
def env0 : Env :=
  { OPENSEA_API_KEY := some ("key".toList)
    RPC_URL := some ("rpc".toList)
    TARGET_CONTRACT_ADDRESS := some ("0xTARGET00000000000000000000000000000000aa".toList)
    LISTING_PRICE_IN_ETH := some ['0', '.', '1']
    LISTING_DURATION_MINUTES := some ['1', '5']
    WALLETS := some ("0xA\n0xB".toList)
    PRIVATE_KEYS := some ("k1\nk2".toList) }

/-- The configuration that `startup env0` produces. -/
def cfg0 : Config :=
  { apiKey := "key".toList
    rpcUrl := "rpc".toList
    target := "0xTARGET00000000000000000000000000000000aa".toList
    price := ['0', '.', '1']
    duration := ['1', '5']
    wallets := ["0xA".toList, "0xB".toList]
    keys := ["k1".toList, "k2".toList] }

/-- A query environment in which wallet 0's holdings query throws and
wallet 1 returns two tokens of the target collection. -/
def query0 : Nat → QueryResult :=
  fun i => if i = 0 then QueryResult.err ['x'] else QueryResult.ok [nft0, nft1]

/-- A submission environment in which the first token of each wallet is
accepted and every later token receives a non-2xx response. -/
def submit0 : Nat → Nat → SubmitOutcome :=
  fun _ j => if j = 0 then SubmitOutcome.accepted else SubmitOutcome.httpErrorResponse

/-- A concrete salt assignment. -/
def salt0 : Nat → Nat → Nat :=
  fun i j => i * 100 + j

/-- An environment whose API key is unset; everything else present. -/
def envMissing : Env :=
  { OPENSEA_API_KEY := none
    RPC_URL := some ("rpc".toList)
    TARGET_CONTRACT_ADDRESS := some ("0xT".toList)
    LISTING_PRICE_IN_ETH := some ['0', '.', '1']
    LISTING_DURATION_MINUTES := some ['1', '5']
    WALLETS := some ("0xA".toList)
    PRIVATE_KEYS := some ("k1".toList) }

/-- An environment whose wallet list is a whitespace-only string and
whose key list is the empty string, all scalar values present: both
parse to zero non-blank lines. -/
def envBlankLists : Env :=
  { OPENSEA_API_KEY := some ("key".toList)
    RPC_URL := some ("rpc".toList)
    TARGET_CONTRACT_ADDRESS := some ("0xT".toList)
    LISTING_PRICE_IN_ETH := some ['0', '.', '1']
    LISTING_DURATION_MINUTES := some ['1', '5']
    WALLETS := some [' ']
    PRIVATE_KEYS := some [] }

/-! ### Helper lemmas -/

theorem splitOnChar_not_mem (sep : Char) (l : JStr) (h : sep ∉ l) :
    splitOnChar sep l = [l] := by
  induction l with
  | nil => rfl
  | cons c rest ih =>
    have hc : ¬ c = sep := fun e => h (by simp [e])
    have hr := ih (fun m => h (List.mem_cons_of_mem _ m))
    simp [splitOnChar, hc, hr]

theorem splitOnChar_append (sep : Char) (A B : JStr) (hA : sep ∉ A) :
    splitOnChar sep (A ++ sep :: B) = A :: splitOnChar sep B := by
  induction A with
  | nil => simp [splitOnChar]
  | cons c A' ih =>
    have hc : ¬ c = sep := fun e => hA (by simp [e])
    have hr := ih (fun m => hA (List.mem_cons_of_mem _ m))
    simp [splitOnChar, hc, hr]

theorem map_toLower_eq_iff (a b : JStr) :
    jsToLowerCase a = jsToLowerCase b ↔ eqIgnoreCase a b := by
  induction a generalizing b with
  | nil =>
    cases b <;> simp [jsToLowerCase, eqIgnoreCase]
  | cons c a' ih =>
    cases b with
    | nil => simp [jsToLowerCase, eqIgnoreCase]
    | cons d b' =>
      simp [jsToLowerCase, eqIgnoreCase, List.forall₂_cons] at ih ⊢
      intro _
      exact ih b'

/-! ### C1: the counter field -/

/-- C1 (counterexample): the claim says the counter field of every built
order is the offerer's current on-chain counter value; but when the
offerer's on-chain counter is 1 the built order's counter is still the
constant string "0" — the code (src/unnamed/part_000 line 132) hardcodes
`counter: '0'` and never queries the chain. -/
theorem C1_counterexample :
    ¬ counterFromChain 1 (buildOrder wa0 nft0 1 0 60 0) := by
  unfold counterFromChain
  decide

/-- C1 (amended): the counter field of every order built by the listing
pipeline is the constant string "0"; the offerer's on-chain counter is
never consulted. -/
theorem C1_counter_constant (walletAddress : JStr) (nft : NFT) (priceInWei : Int)
    (now : Int) (durationInSeconds : Int) (saltValue : Nat) :
    (buildOrder walletAddress nft priceInWei now durationInSeconds saltValue).counter = ['0'] :=
  rfl

/-! ### C5: order timing -/

/-- C5: whenever the configured duration string parses to the integer
`m` (minutes) and `listNFT` builds an order, the built order satisfies
`endTime - startTime = m * 60` exactly and `startTime` is the Unix time
`now` at the moment of the call (src/unnamed/part_000 lines 61-62 and
126-127). -/
theorem C5_order_timing (priceStr durStr walletAddress : JStr) (nft : NFT)
    (now : Int) (saltValue : Nat) (m : Int) (o : OrderComponents)
    (hm : parseIntJS durStr = some m)
    (ho : orderOfListing priceStr durStr walletAddress nft now saltValue = some o) :
    o.endTime - o.startTime = m * 60 ∧ o.startTime = now := by
  cases hp : parseEther priceStr with
  | none => simp [orderOfListing, hp] at ho
  | some wei =>
    simp only [orderOfListing, hp, hm] at ho
    cases ho
    simp [buildOrder]

/-- C5 (witness): at duration "15", price "0.1", `now = 1000`. -/
theorem C5_order_timing_witness :
    parseIntJS ['1', '5'] = some 15 ∧
    orderOfListing ['0', '.', '1'] ['1', '5'] wa0 nft0 1000 7 = some order5 ∧
    order5.endTime - order5.startTime = 15 * 60 ∧ order5.startTime = 1000 := by
  refine ⟨by decide, by decide, ?_, ?_⟩
  · exact (C5_order_timing ['0', '.', '1'] ['1', '5'] wa0 nft0 1000 7 15 order5
      (by decide) (by decide)).1
  · exact (C5_order_timing ['0', '.', '1'] ['1', '5'] wa0 nft0 1000 7 15 order5
      (by decide) (by decide)).2

/-! ### C6: duration validation -/

/-- C6 (counterexample): the claim says a zero duration is reported as a
configuration error and no order with `endTime ≤ startTime` is ever
built and submitted; but with duration "0" the code builds an order with
`endTime = startTime`, signs it and submits it (here with an accepted
response, so `listNFT` even returns `true`) — there is no duration check
anywhere in the scripts. -/
theorem C6_counterexample :
    orderOfListing ['0', '.', '1'] ['0'] wa0 nft0 1000 7 = some order6 ∧
    order6.endTime = order6.startTime ∧
    (listNFT ['0', '.', '1'] ['0'] wa0 nft0 1000 7 SubmitOutcome.accepted).1 = true := by
  refine ⟨by decide, by decide, by decide⟩

/-- C6 (amended): the code performs no duration validation: whenever the
duration string parses to `m` and an order is built, the invariant
`startTime < endTime` holds exactly when `0 < m`; a zero or negative
parsed duration silently yields an order with `endTime ≤ startTime`
which is still signed and submitted. -/
theorem C6_duration_not_validated (priceStr durStr walletAddress : JStr) (nft : NFT)
    (now : Int) (saltValue : Nat) (m : Int) (o : OrderComponents)
    (hm : parseIntJS durStr = some m)
    (ho : orderOfListing priceStr durStr walletAddress nft now saltValue = some o) :
    o.startTime < o.endTime ↔ 0 < m := by
  cases hp : parseEther priceStr with
  | none => simp [orderOfListing, hp] at ho
  | some wei =>
    simp only [orderOfListing, hp, hm] at ho
    cases ho
    simp only [buildOrder]
    omega

/-- C6 (amended, witness): at duration "20" the built order has
`startTime < endTime`. -/
theorem C6_duration_not_validated_witness :
    orderOfListing ['0', '.', '1'] ['2', '0'] wa0 nft0 1000 7 =
      some (buildOrder wa0 nft0 100000000000000000 1000 1200 7) ∧
    ((buildOrder wa0 nft0 100000000000000000 1000 1200 7).startTime <
      (buildOrder wa0 nft0 100000000000000000 1000 1200 7).endTime ↔ (0 : Int) < 20) := by
  refine ⟨by decide, ?_⟩
  exact C6_duration_not_validated ['0', '.', '1'] ['2', '0'] wa0 nft0 1000 7 20
    (buildOrder wa0 nft0 100000000000000000 1000 1200 7) (by decide) (by decide)

/-! ### C7: case-insensitive filtering -/

/-- C7: a fetched token is selected by the main loop's filter
(src/unnamed/part_000 line 182, src/main.js line 113) if and only if its
contract address equals the configured target contract address up to
letter case; in particular a token whose contract differs from the
target only in case is still selected. -/
theorem C7_case_insensitive_filter (nfts : List NFT) (target : JStr) (n : NFT) :
    n ∈ targetNfts nfts target ↔ n ∈ nfts ∧ eqIgnoreCase n.contract target := by
  simp only [targetNfts, List.mem_filter, beq_iff_eq, map_toLower_eq_iff]

/-! ### C9: totality and logging of listNFT -/

/-- C9 (counterexample): the claim says every invocation of `listNFT`
appends exactly one terminal log entry; but on a non-2xx HTTP response
the catch block (src/unnamed/part_000 lines 154-161) appends both the
`[FAILED] ... Reason:` line and a second `[FAILED] Error Details:` line,
so this invocation appends two terminal entries. -/
theorem C9_counterexample :
    terminalCount (listNFT ['0', '.', '1'] ['1', '5'] wa0 nft0 1000 7
      SubmitOutcome.httpErrorResponse).2 = 2 := by
  decide

/-- C9 (amended): `listNFT` never propagates an exception (it is a total
function of its inputs and the submission outcome); it returns `true`
exactly when an order is built and the HTTP response is accepted, and
`false` on every error in price conversion, order building, signing or
submission; every invocation appends exactly one `[START]` entry first,
followed by exactly one `[SUCCESS]` entry on success, one `[FAILED]`
entry on a failure without an HTTP error response, and two `[FAILED]`
entries (reason plus details) exactly when a non-2xx HTTP response is
received. -/
theorem C9_listNFT_total (priceStr durStr walletAddress : JStr) (nft : NFT)
    (now : Int) (saltValue : Nat) (oc : SubmitOutcome) :
    ((listNFT priceStr durStr walletAddress nft now saltValue oc).1 = true ↔
      (orderOfListing priceStr durStr walletAddress nft now saltValue).isSome = true ∧
        oc = SubmitOutcome.accepted) ∧
    (listNFT priceStr durStr walletAddress nft now saltValue oc).2.head? = some LogTag.start ∧
    startCount (listNFT priceStr durStr walletAddress nft now saltValue oc).2 = 1 ∧
    ((listNFT priceStr durStr walletAddress nft now saltValue oc).2 =
        [LogTag.start, LogTag.success] ∨
     (listNFT priceStr durStr walletAddress nft now saltValue oc).2 =
        [LogTag.start, LogTag.failed] ∨
     (listNFT priceStr durStr walletAddress nft now saltValue oc).2 =
        [LogTag.start, LogTag.failed, LogTag.failed]) ∧
    ((listNFT priceStr durStr walletAddress nft now saltValue oc).2 =
        [LogTag.start, LogTag.failed, LogTag.failed] ↔
      (orderOfListing priceStr durStr walletAddress nft now saltValue).isSome = true ∧
        oc = SubmitOutcome.httpErrorResponse) := by
  cases ho : orderOfListing priceStr durStr walletAddress nft now saltValue <;>
    cases oc <;>
      simp [listNFT, ho, startCount]

/-! ### C8: the two script variants -/

/-- C8 (counterexample): the claim says the two script variants produce
the same listing-submission HTTP body and observe the same
inter-submission delay for identical inputs; but src/main.js never
produces a submission body at all (its order construction at lines 64-67
is an empty placeholder, so signing at line 69 throws before the POST),
while src/unnamed/part_000 submits the `parameters`-wrapped body at this
concrete input, and the delays differ (1000 ms at src/main.js line 120
versus 2000 ms at src/unnamed/part_000 line 191). -/
theorem C8_counterexample :
    mainJsSubmittedBody = none ∧
    part000SubmittedBody ['0', '.', '1'] ['1', '5'] wa0 nft0 1000 7 ['0', 'x', 's'] =
      some (payloadPart000 order5 ['0', 'x', 's']) ∧
    mainJsDelayMs ≠ part000DelayMs := by
  refine ⟨rfl, rfl, by decide⟩

/-- C8 (amended): the two script variants are near-duplicate listing
pipelines but are not behaviourally equivalent: their inter-submission
delays differ (1000 ms in src/main.js, 2000 ms in src/unnamed/part_000),
and src/main.js cannot submit at all — its `types`/`offer`/
`consideration`/`orderComponents` are empty placeholder literals, so
typed-data signing throws before the POST and no listing body is ever
sent — while src/unnamed/part_000 submits the `parameters`-wrapped body
for every input whose order builds. -/
theorem C8_variants_differ :
    mainJsDelayMs = 1000 ∧ part000DelayMs = 2000 ∧
    (mainJsSignTypedData = none ∧ mainJsSubmittedBody = none) ∧
    (∀ (priceStr durStr walletAddress : JStr) (nft : NFT) (now : Int) (saltValue : Nat)
        (signature : JStr) (o : OrderComponents),
      orderOfListing priceStr durStr walletAddress nft now saltValue = some o →
      part000SubmittedBody priceStr durStr walletAddress nft now saltValue signature =
        some (payloadPart000 o signature)) := by
  refine ⟨rfl, rfl, ⟨rfl, rfl⟩, ?_⟩
  intro priceStr durStr walletAddress nft now saltValue signature o ho
  simp [part000SubmittedBody, ho]

/-- C8 (amended, witness): at price "0.1", duration "15", wallet `wa0`,
token `nft0`, part_000 submits the `parameters`-wrapped body of
`order5`. -/
theorem C8_variants_differ_witness :
    part000SubmittedBody ['0', '.', '1'] ['1', '5'] wa0 nft0 1000 7 ['0', 'x', 'w'] =
      some (payloadPart000 order5 ['0', 'x', 'w']) := by
  exact C8_variants_differ.2.2.2 ['0', '.', '1'] ['1', '5'] wa0 nft0 1000 7 ['0', 'x', 'w']
    order5 (by decide)

/-! ### C2: failure isolation and exit codes -/

theorem runWallets_ok (cfg : Config) (keyValid : Nat → Bool) (query : Nat → QueryResult)
    (submit : Nat → Nat → SubmitOutcome) (now : Int) (saltOf : Nat → Nat → Nat)
    (l : List Nat) (h : ∀ i ∈ l, keyValid i = true) :
    runWallets cfg keyValid query submit now saltOf l =
      Except.ok (l.map (fun i => processWallet cfg i query submit now saltOf)) := by
  induction l with
  | nil => rfl
  | cons i rest ih =>
    have hi : keyValid i = true := h i (by simp)
    have hr := ih (fun j hj => h j (List.mem_cons_of_mem _ hj))
    simp [runWallets, hi, hr]

/-- C2: when startup validation succeeds and every private key is
well-formed, the run completes with exit status 0 for every pattern of
holdings-query failures and per-token submission failures: each wallet
yields a result (a failed query marks only that wallet as skipped, the
loop continues with the next wallet), a wallet with a successful query
attempts `listNFT` on every one of its filtered tokens regardless of how
many submissions fail, and the process exits 1 exactly when
configuration validation fails or an error escapes the per-wallet
guards (an uncaught fatal error). -/
theorem C2_failure_isolation (env : Env) (keyValid : Nat → Bool) (query : Nat → QueryResult)
    (submit : Nat → Nat → SubmitOutcome) (now : Int) (saltOf : Nat → Nat → Nat) (cfg : Config)
    (hok : startup env = Except.ok cfg) (hkeys : ∀ i, keyValid i = true) :
    runProgram env keyValid query submit now saltOf = 0 ∧
    runWallets cfg keyValid query submit now saltOf (List.range cfg.wallets.length) =
      Except.ok ((List.range cfg.wallets.length).map
        (fun i => processWallet cfg i query submit now saltOf)) ∧
    (∀ i msg, query i = QueryResult.err msg →
      processWallet cfg i query submit now saltOf = WalletResult.queryFailed) ∧
    (∀ i nfts, query i = QueryResult.ok nfts →
      processWallet cfg i query submit now saltOf =
        WalletResult.processed ((targetNfts nfts cfg.target).enum.map (fun p =>
          (listNFT cfg.price cfg.duration (cfg.wallets.getD i []) p.2 now
            (saltOf i p.1) (submit i p.1)).1))) ∧
    (∀ (env2 : Env) (kv2 : Nat → Bool) (q2 : Nat → QueryResult)
        (s2 : Nat → Nat → SubmitOutcome) (now2 : Int) (so2 : Nat → Nat → Nat),
      runProgram env2 kv2 q2 s2 now2 so2 = 1 →
      startupOk env2 = false ∨
        ∃ cfg2, startup env2 = Except.ok cfg2 ∧
          runWallets cfg2 kv2 q2 s2 now2 so2 (List.range cfg2.wallets.length) =
            Except.error ()) := by
  have hrw := runWallets_ok cfg keyValid query submit now saltOf
    (List.range cfg.wallets.length) (fun i _ => hkeys i)
  refine ⟨?_, hrw, ?_, ?_, ?_⟩
  · simp [runProgram, hok, hrw]
  · intro i msg hq
    simp [processWallet, hq]
  · intro i nfts hq
    simp [processWallet, hq]
  · intro env2 kv2 q2 s2 now2 so2 h1
    cases h2 : startup env2 with
    | error e =>
      left
      simp [startupOk, h2]
    | ok cfg2 =>
      right
      refine ⟨cfg2, rfl, ?_⟩
      cases h3 : runWallets cfg2 kv2 q2 s2 now2 so2 (List.range cfg2.wallets.length) with
      | ok rs => simp [runProgram, h2, h3] at h1
      | error e => cases e; rfl

/-- C2 (witness): in a run with two wallets where wallet 0's holdings
query throws and wallet 1 has two matching tokens with one failed
submission, the exit status is still 0. -/
theorem C2_failure_isolation_witness :
    runProgram env0 (fun _ => true) query0 submit0 1000 salt0 = 0 := by
  exact (C2_failure_isolation env0 (fun _ => true) query0 submit0 1000 salt0 cfg0
    rfl (fun i => rfl)).1

/-! ### C3: startup validation -/

/-- C3 (counterexample): the claim says a configuration in which the
wallet list is missing halts startup with a non-zero exit status; but
with `WALLETS` set to a whitespace-only string and `PRIVATE_KEYS` to the
empty string (both parsing to zero non-blank lines) and all scalar
values present, the two parsed lists have equal length 0, validation
passes and startup proceeds — no halt and no diagnostic. -/
theorem C3_counterexample :
    parseLines [' '] = [] ∧ parseLines [] = [] ∧ startupOk envBlankLists = true := by
  decide

/-- C3 (amended): with both list variables set, a missing (unset or
empty) API key, RPC URL, target contract address, price or duration
halts startup before any wallet is processed, with exit status 1 and the
missing-variables diagnostic; with all scalars present, unequal counts
of non-blank wallet and key lines halt with the mismatch diagnostic;
with equal counts (including zero) validation passes.  An unset
`WALLETS` or `PRIVATE_KEYS` variable halts with an uncaught TypeError
at the parsing step rather than a validation diagnostic.  Whenever
startup does not pass, the process exits 1 without any network call
(`runProgram` never consults the query or submission environments). -/
theorem C3_validation_behaviour :
    (∀ (env : Env) (w k : JStr), env.WALLETS = some w → env.PRIVATE_KEYS = some k →
      (falsyOpt env.OPENSEA_API_KEY || falsyOpt env.RPC_URL ||
       falsyOpt env.TARGET_CONTRACT_ADDRESS || falsyOpt env.LISTING_PRICE_IN_ETH ||
       falsyOpt env.LISTING_DURATION_MINUTES) = true →
      startup env = Except.error StartupError.missingEnvVars) ∧
    (∀ (env : Env) (w k : JStr), env.WALLETS = some w → env.PRIVATE_KEYS = some k →
      (falsyOpt env.OPENSEA_API_KEY || falsyOpt env.RPC_URL ||
       falsyOpt env.TARGET_CONTRACT_ADDRESS || falsyOpt env.LISTING_PRICE_IN_ETH ||
       falsyOpt env.LISTING_DURATION_MINUTES) = false →
      (parseLines w).length ≠ (parseLines k).length →
      startup env =
        Except.error (StartupError.lengthMismatch (parseLines w).length (parseLines k).length)) ∧
    (∀ (env : Env) (w k : JStr), env.WALLETS = some w → env.PRIVATE_KEYS = some k →
      (falsyOpt env.OPENSEA_API_KEY || falsyOpt env.RPC_URL ||
       falsyOpt env.TARGET_CONTRACT_ADDRESS || falsyOpt env.LISTING_PRICE_IN_ETH ||
       falsyOpt env.LISTING_DURATION_MINUTES) = false →
      (parseLines w).length = (parseLines k).length →
      ∃ cfg, startup env = Except.ok cfg ∧ cfg.wallets = parseLines w ∧
        cfg.keys = parseLines k) ∧
    (∀ env : Env, env.WALLETS = none ∨ env.PRIVATE_KEYS = none →
      startup env = Except.error StartupError.typeError) ∧
    (∀ (env : Env) (kv : Nat → Bool) (q : Nat → QueryResult)
        (s : Nat → Nat → SubmitOutcome) (now : Int) (so : Nat → Nat → Nat),
      startupOk env = false → runProgram env kv q s now so = 1) := by
  refine ⟨?_, ?_, ?_, ?_, ?_⟩
  · intro env w k hw hk hfal
    simp [startup, hw, hk, hfal]
  · intro env w k hw hk hfal hne
    simp [startup, hw, hk, hfal, hne]
  · intro env w k hw hk hfal heq
    refine ⟨{ apiKey := env.OPENSEA_API_KEY.getD []
              rpcUrl := env.RPC_URL.getD []
              target := env.TARGET_CONTRACT_ADDRESS.getD []
              price := env.LISTING_PRICE_IN_ETH.getD []
              duration := env.LISTING_DURATION_MINUTES.getD []
              wallets := parseLines w
              keys := parseLines k }, ?_, rfl, rfl⟩
    simp [startup, hw, hk, hfal, heq]
  · intro env h
    cases h with
    | inl h => simp [startup, h]
    | inr h =>
      cases hw : env.WALLETS with
      | none => simp [startup, hw]
      | some w => simp [startup, hw, h]
  · intro env kv q s now so h
    cases h2 : startup env with
    | error e => simp [runProgram, h2]
    | ok c => simp [startupOk, h2] at h

/-- C3 (witness): an unset API key (all other values present) halts
startup with the missing-variables diagnostic. -/
theorem C3_validation_witness :
    startup envMissing = Except.error StartupError.missingEnvVars := by
  exact C3_validation_behaviour.1 envMissing ("0xA".toList) ("k1".toList) rfl rfl (by decide)

/-! ### C4: price conversion -/

theorem parseLines_joinLines (lines : List JStr) (h : ∀ l ∈ lines, '\n' ∉ l) :
    parseLines (joinLines lines) = (lines.map trimJS).filter (fun l => !l.isEmpty) := by
  induction lines with
  | nil => rfl
  | cons l rest ih =>
    cases rest with
    | nil =>
      have hl : '\n' ∉ l := h l (by simp)
      simp only [joinLines, parseLines, splitOnChar_not_mem '\n' l hl]
    | cons l2 rest' =>
      have hl : '\n' ∉ l := h l (by simp)
      have hrest := ih (fun x hx => h x (by simp [hx]))
      simp only [joinLines, parseLines] at hrest ⊢
      rw [splitOnChar_append '\n' l (joinLines (l2 :: rest')) hl]
      simp only [List.map_cons, List.filter_cons]
      rw [hrest]
      simp only [List.map_cons, List.filter_cons]

/-- C10: `WALLETS` and `PRIVATE_KEYS` (src/main.js and
src/unnamed/part_000 lines 26-27) are parsed by splitting on newlines,
trimming each line, and discarding empty lines: for any list of
newline-free lines joined with newlines, the parsed list is exactly the
trimmed non-blank lines in order, so blank or whitespace-only lines
never count toward either list's length; and the configuration the
length check and the wallet loop use holds exactly these parsed lists,
pairing address `i` with key `i` among non-blank lines only. -/
theorem C10_line_parsing :
    (∀ lines : List JStr, (∀ l ∈ lines, '\n' ∉ l) →
      parseLines (joinLines lines) = (lines.map trimJS).filter (fun l => !l.isEmpty)) ∧
    (∀ (env : Env) (w k : JStr) (cfg : Config), env.WALLETS = some w →
      env.PRIVATE_KEYS = some k → startup env = Except.ok cfg →
      cfg.wallets = parseLines w ∧ cfg.keys = parseLines k) := by
  constructor
  · exact parseLines_joinLines
  · intro env w k cfg hw hk hok
    simp only [startup, hw, hk] at hok
    split at hok
    · simp at hok
    · split at hok
      · simp at hok
      · injection hok with h
        rw [← h]
        exact ⟨rfl, rfl⟩

/-- C10 (witness): the lines " a ", " " and "b" parse to exactly
["a", "b"]: the whitespace-only line is discarded and the others are
trimmed. -/
theorem C10_line_parsing_witness :
    parseLines (joinLines [[' ', 'a', ' '], [' '], ['b']]) =
      ([[' ', 'a', ' '], [' '], ['b']].map trimJS).filter (fun l => !l.isEmpty) := by
  exact C10_line_parsing.1 [[' ', 'a', ' '], [' '], ['b']] (by decide)

end VenvenSpec
